import Mathlib

/-!
Shallow embedding of the productivity / timesheet aggregation core of the
jira-tools repository (src/main.py, src/dashboard/jira_logic.py,
src/dashboard/jira_logic_updates.py, src/jira_work_hours/core.py).

Modelling conventions:
* Calendar dates are integers (a day count); adding one day is `+ 1`, and
  `weekday d = d % 7` with `0 = Monday` … `6 = Sunday`, matching Python's
  `date.weekday()` convention that Monday–Friday are `0..4`.
* Hours/seconds are rationals (`ℚ`); Python's `round(x, 2)` is modelled by
  `round2`.
* Python optional values (attribute absent or `None`) are `Option`s; Python
  string truthiness (`if s:`) is `optTruthy`.
* Functions that may raise and be reported as error strings return
  `Except String _`.
* The network client (JQL searches, `jira.worklogs`, `jira.myself`,
  `dateparser.parse`) is outside the core: its results are parameters.
-/

deriving instance DecidableEq for Except

namespace JiraTools

/-- Python `str.lower()` (ASCII case folding in this model). -/
def pyLower (s : String) : String := ⟨s.data.map Char.toLower⟩

/-- Python `round(x)`: round half to even (banker's rounding), on the
rational model. -/
def pyRound (x : ℚ) : ℤ :=
  let f := ⌊x⌋
  let frac := x - (f : ℚ)
  if frac < 1 / 2 then f
  else if 1 / 2 < frac then f + 1
  else if f % 2 = 0 then f else f + 1

/-- Python `round(x, 2)` on the rational model (2-decimal rounding). -/
def round2 (x : ℚ) : ℚ := (pyRound (x * 100) : ℚ) / 100

/-- Python `date.weekday()`: `0 = Monday` … `6 = Sunday` in the integer-day model. -/
def pyWeekday (d : ℤ) : ℤ := d % 7

/-- Python truthiness of an optional string (`None` and `""` are falsy). -/
def optTruthy : Option String → Bool
  | none => false
  | some s => !s.isEmpty

/-- Python truthiness of an optional number (`None` and `0` are falsy). -/
def qTruthy : Option ℚ → Bool
  | none => false
  | some x => decide (x ≠ 0)

/-- Worklog author record (`worklog.author`); a field is `none` when the
attribute is absent or `None`. -/
structure AuthorIdentity where
  accountId : Option String
  name : Option String
  displayName : Option String
deriving DecidableEq, Repr

/-- The `me` dict built by `get_me`. -/
structure MeDict where
  accountId : Option String
  name : Option String
  displayName : Option String
  emailAddress : Option String
deriving DecidableEq, Repr

/-- Model of `_is_my_worklog(worklog, me)` from src/main.py (identical in
src/dashboard/jira_logic.py): the worklog argument is represented by its
`author` attribute (`none` when the worklog has no author record). -/
def _is_my_worklog (wl_author : Option AuthorIdentity) (me : MeDict) : Bool :=
  match wl_author with
  | none => false
  | some a =>
    if optTruthy me.accountId && (a.accountId == me.accountId) then
      true
    else if optTruthy me.name && optTruthy a.name
        && ((a.name.map pyLower) == (me.name.map pyLower)) then
      true
    else if optTruthy me.displayName && (a.displayName == me.displayName) then
      true
    else
      false

/-- The Identity Matcher as the spec states it (§4.2): layered precedence,
(1) both non-empty account identifiers equal case-sensitively, (2) else both
non-empty short names equal case-insensitively, (3) else both non-empty
display names equal case-sensitively, (4) else no match; no author record
means no match.  Used only to compare against `_is_my_worklog`. -/
def specIdentityMatch (wl_author : Option AuthorIdentity) (me : MeDict) : Bool :=
  match wl_author with
  | none => false
  | some a =>
    (optTruthy a.accountId && optTruthy me.accountId && (a.accountId == me.accountId))
    || (optTruthy a.name && optTruthy me.name
        && ((a.name.map pyLower) == (me.name.map pyLower)))
    || (optTruthy a.displayName && optTruthy me.displayName
        && (a.displayName == me.displayName))

/-- Model of `get_me(jira)` from src/dashboard/jira_logic.py: `myself` is the result of
`jira.myself()` (`none` when that call raises).  On failure every field of the
fallback dict is `None`. -/
def get_me_dashboard (myself : Option MeDict) : MeDict :=
  match myself with
  | some m => m
  | none => ⟨none, none, none, none⟩

/-- Model of `get_me(jira)` from src/main.py: on failure the fallback dict carries the
configured `JIRA_USERNAME` in its `name` field and `None` elsewhere. -/
def get_me_cli (JIRA_USERNAME : Option String) (myself : Option MeDict) : MeDict :=
  match myself with
  | some m => m
  | none => ⟨none, JIRA_USERNAME, none, none⟩

/-! ## Business calendar (`_dates_in_range`) -/

/-- The `while cur <= end_date` loop body of `_dates_in_range`, with the
number of remaining iterations made explicit. -/
def datesLoop (exclude_weekends : Bool) (holidays : Finset ℤ) : Nat → ℤ → Finset ℤ
  | 0, _ => ∅
  | n + 1, cur =>
    let rest := datesLoop exclude_weekends holidays n (cur + 1)
    if (exclude_weekends = false ∨ pyWeekday cur < 5) ∧ cur ∉ holidays then
      insert cur rest
    else
      rest

/-- Model of `_dates_in_range(start_date, end_date, exclude_weekends, holidays)` from
src/main.py (the src/dashboard/jira_logic.py copy defaults `holidays` to the
empty set): the loop runs once per day of the inclusive range. -/
def _dates_in_range (start_date end_date : ℤ) (exclude_weekends : Bool)
    (holidays : Finset ℤ) : Finset ℤ :=
  datesLoop exclude_weekends holidays (end_date + 1 - start_date).toNat start_date

/-! ## Substring test (Python `in` on strings) -/

/-- Python's string containment: `needle` is a prefix of `hay`. -/
def isPrefixOfB : List Char → List Char → Bool
  | [], _ => true
  | _ :: _, [] => false
  | a :: as, b :: bs => a == b && isPrefixOfB as bs

/-- Python's `needle in hay` on strings (substring containment). -/
def isSubstrB (needle : List Char) : List Char → Bool
  | [] => needle.isEmpty
  | c :: hs => isPrefixOfB needle (c :: hs) || isSubstrB needle hs

/-- Python `needle in hay` for Lean strings. -/
def strContains (hay needle : String) : Bool := isSubstrB needle.data hay.data

/-! ## Issue Productivity Calculator -/

/-- The configured activity-type custom field's raw value: an object exposing
`.value`, a mapping with a `"value"` key, or anything else (taken through
`str(...)`, modelled as the resulting string). -/
inductive FieldValue
  | objWithValue (v : String)
  | dictWithValue (v : String)
  | other (s : String)
deriving DecidableEq, Repr

/-- The activity-type normalization of `get_issue_productivity`
(src/dashboard/jira_logic.py lines 179–188) / `_extract_activity_type`
(src/main.py): absence gives `None`, `.value`-shaped values give the value,
anything else stringifies. -/
def _extract_activity_type : Option FieldValue → Option String
  | none => none
  | some (.objWithValue v) => some v
  | some (.dictWithValue v) => some v
  | some (.other s) => some s

/-- A worklog as returned by `jira.worklogs(issue.key)`: author record,
the calendar date obtained from `_parse_iso_date(worklog.started).date()`
(`none` when that parse raises), and `timeSpentSeconds`. -/
structure WorklogEntry where
  author : Option AuthorIdentity
  startedDate : Option ℤ
  timeSpentSeconds : ℚ
deriving DecidableEq, Repr

/-- The fields of an issue consumed by the productivity calculator and the
aggregators (`issue.fields` plus the issue's worklog list). -/
structure IssueData where
  key : String
  summary : String
  issuetypeName : Option String
  statusName : String
  activityField : Option FieldValue
  timeoriginalestimate : Option ℚ
  worklogs : List WorklogEntry
deriving DecidableEq, Repr

/-- Model of `calculate_productivity_score(estimated_hours, logged_hours)` from
src/dashboard/jira_logic.py / src/main.py. -/
def calculate_productivity_score (estimated_hours logged_hours : ℚ) : Option ℚ :=
  if estimated_hours = 0 then none
  else some (((estimated_hours - logged_hours) / estimated_hours) * 100)

/-- The record built by `get_issue_productivity`
(src/dashboard/jira_logic.py lines 206–217). -/
structure ProductivityRecord where
  issue_key : String
  summary : String
  type : Option String
  status : String
  activity_type : Option String
  estimated_hours : ℚ
  logged_hours : ℚ
  productivity_score : Option ℚ
  is_productive_activity : Bool
deriving DecidableEq, Repr

/-- Model of `get_issue_productivity(jira, issue_key)` from src/dashboard/jira_logic.py
(the plain per-issue path of the src/main.py copy is the same computation):
the fetched issue is the `issue` argument, the activity whitelist is
`PRODUCTIVE_ACTIVITY_TYPES`.  Returns the `(result, None)` /
`(None, reason)` pair as `Except`. -/
def get_issue_productivity (PRODUCTIVE_ACTIVITY_TYPES : List String)
    (issue : IssueData) : Except String ProductivityRecord :=
  let issue_type := pyLower (issue.issuetypeName.getD "")
  if !strContains issue_type "task" && !strContains issue_type "story" then
    .error ("Issue " ++ issue.key ++ " is not a Task or Story (Type: "
      ++ issue.issuetypeName.getD "None" ++ ")")
  else
    let activity_type := _extract_activity_type issue.activityField
    if !qTruthy issue.timeoriginalestimate then
      .error ("Issue " ++ issue.key ++ " has no original time estimate")
    else
      let estimated_hours := issue.timeoriginalestimate.getD 0 / 3600
      let total_logged_hours := (issue.worklogs.map (·.timeSpentSeconds / 3600)).sum
      let is_productive :=
        match activity_type with
        | some v => PRODUCTIVE_ACTIVITY_TYPES.contains v
        | none => false
      .ok
        { issue_key := issue.key
          summary := issue.summary
          type := issue.issuetypeName
          status := issue.statusName
          activity_type := activity_type
          estimated_hours := round2 estimated_hours
          logged_hours := round2 total_logged_hours
          productivity_score :=
            if is_productive then
              (calculate_productivity_score estimated_hours total_logged_hours).map round2
            else none
          is_productive_activity := is_productive }

/-! ## Range / Daily Aggregator (src/dashboard/jira_logic.py) -/

/-- The per-issue window-hours of `get_range_productivity`
(src/dashboard/jira_logic.py lines 376–384): hours of worklogs whose parsed
date is in `included_dates` and whose author matches; a worklog whose
timestamp fails to parse is skipped (`continue`). -/
def rangeLoggedHours (included_dates : Finset ℤ) (me : MeDict)
    (wls : List WorklogEntry) : ℚ :=
  wls.foldl
    (fun acc wl =>
      match wl.startedDate with
      | none => acc
      | some d =>
        if d ∈ included_dates ∧ _is_my_worklog wl.author me then
          acc + wl.timeSpentSeconds / 3600
        else acc)
    0

/-- The per-issue day-hours of `get_daily_productivity`
(src/dashboard/jira_logic.py lines 262–269): same loop with
`wl_date == target_date`. -/
def dateLoggedHours (target_date : ℤ) (me : MeDict)
    (wls : List WorklogEntry) : ℚ :=
  wls.foldl
    (fun acc wl =>
      match wl.startedDate with
      | none => acc
      | some d =>
        if d = target_date ∧ _is_my_worklog wl.author me then
          acc + wl.timeSpentSeconds / 3600
        else acc)
    0

/-- A row of `issues_without_productivity` (src/dashboard/jira_logic.py
lines 402–412): issue key, the rounded window-hours, and the reason string. -/
structure ExcludedIssueRow where
  issue_key : String
  range_logged_hours : ℚ
  reason : String
deriving DecidableEq, Repr

/-- A row of `range_productivity`: the productivity record with its
`range_logged_hours` field. -/
structure ScoredIssueRow where
  record : ProductivityRecord
  range_logged_hours : ℚ
deriving DecidableEq, Repr

/-- The result dict of `get_range_productivity` (the fields built by the
accumulation loop, lines 365–412 of src/dashboard/jira_logic.py). -/
structure RangeReport where
  range_productivity : List ScoredIssueRow
  issues_without_productivity : List ExcludedIssueRow
  total_estimated : ℚ
  total_logged_in_range : ℚ
  productive_total_estimated : ℚ
  productive_total_logged_in_range : ℚ
deriving DecidableEq, Repr

/-- The `for issue in logged_issues` accumulation loop of
`get_range_productivity` (src/dashboard/jira_logic.py lines 374–412),
written as structural recursion producing the loop's final state: an issue
with positive window-hours is scored via `get_issue_productivity`; on success
its record (with rounded window-hours) joins `range_productivity` and the
totals grow, on failure the issue joins `issues_without_productivity` with
its rounded window-hours and the reason — and no total is touched. -/
def rangeAggregate (types : List String) (included : Finset ℤ) (me : MeDict) :
    List IssueData → RangeReport
  | [] => ⟨[], [], 0, 0, 0, 0⟩
  | issue :: rest =>
    let rep := rangeAggregate types included me rest
    let rh := rangeLoggedHours included me issue.worklogs
    if rh > 0 then
      match get_issue_productivity types issue with
      | .ok r =>
        { rep with
          range_productivity := ⟨r, round2 rh⟩ :: rep.range_productivity
          total_estimated := r.estimated_hours + rep.total_estimated
          total_logged_in_range := rh + rep.total_logged_in_range
          productive_total_estimated :=
            if r.is_productive_activity then r.estimated_hours + rep.productive_total_estimated
            else rep.productive_total_estimated
          productive_total_logged_in_range :=
            if r.is_productive_activity then rh + rep.productive_total_logged_in_range
            else rep.productive_total_logged_in_range }
      | .error e =>
        { rep with
          issues_without_productivity :=
            ⟨issue.key, round2 rh, e⟩ :: rep.issues_without_productivity }
    else rep

/-- The analogous accumulation loop of `get_daily_productivity`
(src/dashboard/jira_logic.py lines 260–296), with `total_logged` in place of
`total_logged_in_range`. -/
def dailyAggregate (types : List String) (target_date : ℤ) (me : MeDict) :
    List IssueData → RangeReport
  | [] => ⟨[], [], 0, 0, 0, 0⟩
  | issue :: rest =>
    let rep := dailyAggregate types target_date me rest
    let rh := dateLoggedHours target_date me issue.worklogs
    if rh > 0 then
      match get_issue_productivity types issue with
      | .ok r =>
        { rep with
          range_productivity := ⟨r, round2 rh⟩ :: rep.range_productivity
          total_estimated := r.estimated_hours + rep.total_estimated
          total_logged_in_range := rh + rep.total_logged_in_range
          productive_total_estimated :=
            if r.is_productive_activity then r.estimated_hours + rep.productive_total_estimated
            else rep.productive_total_estimated
          productive_total_logged_in_range :=
            if r.is_productive_activity then rh + rep.productive_total_logged_in_range
            else rep.productive_total_logged_in_range }
      | .error e =>
        { rep with
          issues_without_productivity :=
            ⟨issue.key, round2 rh, e⟩ :: rep.issues_without_productivity }
    else rep

/-! ## Story Aggregator (src/main.py) -/

/-- Model of `is_done_status(name)` from src/main.py: `DONE_STATUSES` is the
configured set, already lowercased at load time. -/
def is_done_status (DONE_STATUSES : List String) (name : Option String) : Bool :=
  DONE_STATUSES.contains (pyLower (name.getD ""))

/-- A fetched subtask (`jira.issue(sub_ref.key, expand="worklog")`): its
worklog seconds are `none` when `jira.worklogs` raises. -/
structure SubtaskData where
  key : String
  summary : String
  statusName : Option String
  timeoriginalestimate : Option ℚ
  worklogSeconds : Option (List ℚ)
deriving DecidableEq, Repr

/-- Model of `_collect_logged_hours(jira, issue)` from src/main.py as called by the
story aggregator and the per-issue calculator — always with `me=None`, so no
author filtering; a failing `jira.worklogs` call yields `0.0`. -/
def _collect_logged_hours : Option (List ℚ) → ℚ
  | none => 0
  | some ws => (ws.map (· / 3600)).sum

/-- An entry of `included_subtasks` (src/main.py lines 249–255). -/
structure IncludedSubtaskRow where
  key : String
  status : Option String
  estimated_hours : ℚ
  logged_hours : ℚ
deriving DecidableEq, Repr

/-- The record built by `get_story_aggregate_productivity`
(src/main.py lines 259–271). -/
structure StoryAggregateRecord where
  included_subtasks : List IncludedSubtaskRow
  included_subtasks_count : Nat
  excluded_subtasks_missing_estimate : Nat
  aggregated_estimated_hours : ℚ
  aggregated_logged_hours : ℚ
  aggregated_productivity_score : Option ℚ
deriving DecidableEq, Repr

/-- The subtask loop of `get_story_aggregate_productivity` (src/main.py lines
235–257), as structural recursion over the story's subtask references; each
reference carries the result of its `jira.issue` fetch (`none` when the fetch
raises, which is `continue`).  Produces
(`included`, `est_sum`, `logged_sum`, `missing_est`). -/
def storyLoop (DONE_STATUSES : List String) :
    List (Option SubtaskData) → List IncludedSubtaskRow × ℚ × ℚ × Nat
  | [] => ([], 0, 0, 0)
  | sub? :: rest =>
    let acc := storyLoop DONE_STATUSES rest
    match sub? with
    | none => acc
    | some sub =>
      if !is_done_status DONE_STATUSES sub.statusName then acc
      else if !qTruthy sub.timeoriginalestimate then
        (acc.1, acc.2.1, acc.2.2.1, acc.2.2.2 + 1)
      else
        let est_hours := sub.timeoriginalestimate.getD 0 / 3600
        let logged_hours := _collect_logged_hours sub.worklogSeconds
        (⟨sub.key, sub.statusName, round2 est_hours, round2 logged_hours⟩ :: acc.1,
          est_hours + acc.2.1, logged_hours + acc.2.2.1, acc.2.2.2)

/-- Model of `get_story_aggregate_productivity(issue, jira)` from src/main.py
(lines 226–271), restricted to the fields computed from the subtasks. -/
def get_story_aggregate_productivity (DONE_STATUSES : List String)
    (subtasks : List (Option SubtaskData)) : StoryAggregateRecord :=
  let acc := storyLoop DONE_STATUSES subtasks
  let included := acc.1
  let est_sum := acc.2.1
  let logged_sum := acc.2.2.1
  let missing_est := acc.2.2.2
  let productivity :=
    if est_sum > 0 then calculate_productivity_score est_sum logged_sum else none
  { included_subtasks := included
    included_subtasks_count := included.length
    excluded_subtasks_missing_estimate := missing_est
    aggregated_estimated_hours := round2 est_sum
    aggregated_logged_hours := round2 logged_sum
    aggregated_productivity_score := productivity.map round2 }

/-! ## Timesheet completeness, per-day gaps (src/main.py lines 576–604 and the
first `get_timesheet_completeness` of src/dashboard/jira_logic.py) -/

/-- The `logs_by_day` accumulation (src/main.py lines 585–593): worklogs, over
all issues, whose parsed date is in `included` and whose author matches,
summed per day.  A worklog whose timestamp fails to parse is skipped. -/
def logsByDay (included : Finset ℤ) (me : MeDict)
    (wls : List WorklogEntry) (d : ℤ) : ℚ :=
  wls.foldl
    (fun acc wl =>
      match wl.startedDate with
      | none => acc
      | some wd =>
        if wd ∈ included ∧ _is_my_worklog wl.author me ∧ wd = d then
          acc + wl.timeSpentSeconds / 3600
        else acc)
    0

/-- A row of the per-day table (`days_data` in src/dashboard/jira_logic.py
lines 474–479 / `rows` in src/main.py line 600). -/
structure DayGapRow where
  date : ℤ
  logged_hours : ℚ
  target_hours : ℚ
  gap_hours : ℚ
deriving DecidableEq, Repr

/-- The per-day gap table and total of `get_timesheet_completeness(jira,
days_back, exclude_weekends)` (src/main.py lines 594–604): for each included
day in sorted order, `hrs = round(logged, 2)`,
`gap = max(0.0, WORKING_HOURS_PER_DAY - hrs)`, `total_gap += gap`.
`issues` is the list of per-issue worklog lists. -/
def get_timesheet_completeness_days (WORKING_HOURS_PER_DAY : ℚ)
    (included : Finset ℤ) (me : MeDict) (issues : List (List WorklogEntry)) :
    List DayGapRow × ℚ :=
  let logs := logsByDay included me issues.flatten
  let days := included.sort (· ≤ ·)
  (days.map (fun d =>
      let hrs := round2 (logs d)
      let gap := max 0 (WORKING_HOURS_PER_DAY - hrs)
      ⟨d, hrs, WORKING_HOURS_PER_DAY, gap⟩),
    (days.map (fun d => max 0 (WORKING_HOURS_PER_DAY - round2 (logs d)))).sum)

/-! ## Timesheet completeness over a date range (the second
`get_timesheet_completeness` of src/dashboard/jira_logic.py, identical in
src/dashboard/jira_logic_updates.py) -/

/-- The `business_days` loop (src/dashboard/jira_logic.py lines 507–512):
ordered list of days of the inclusive range, honouring `exclude_weekends`
(no holiday set here), with the iteration count made explicit. -/
def businessDaysLoop (exclude_weekends : Bool) : Nat → ℤ → List ℤ
  | 0, _ => []
  | n + 1, cur =>
    (if exclude_weekends = false ∨ pyWeekday cur < 5 then [cur] else [])
      ++ businessDaysLoop exclude_weekends n (cur + 1)

/-- The `worklog_dates` accumulation (src/dashboard/jira_logic.py lines
528–539): dates of parseable, author-matched worklogs inside the range that
pass the weekend filter. -/
def worklogDates (start_date end_date : ℤ) (exclude_weekends : Bool)
    (me : MeDict) (wls : List WorklogEntry) : Finset ℤ :=
  wls.foldl
    (fun acc wl =>
      match wl.startedDate with
      | none => acc
      | some d =>
        if _is_my_worklog wl.author me ∧ start_date ≤ d ∧ d ≤ end_date
            ∧ (exclude_weekends = false ∨ pyWeekday d < 5) then
          insert d acc
        else acc)
    ∅

/-- The result dict of the range-based `get_timesheet_completeness`. -/
structure RangeCompletenessResult where
  start_date : ℤ
  end_date : ℤ
  total_days : Nat
  days_with_logs : Nat
  days_missing : ℤ
  missing_dates : List ℤ
  percentage_complete : ℤ
deriving DecidableEq, Repr

/-- The body of the range-based `get_timesheet_completeness` after date
parsing (src/dashboard/jira_logic.py lines 502–560): swap the dates if
`start_date > end_date`, build the business-day list, fail when it is empty,
collect worklog dates and assemble the metrics. -/
def rangeCompletenessCore (sd ed : ℤ) (exclude_weekends : Bool) (me : MeDict)
    (issues : List (List WorklogEntry)) : Except String RangeCompletenessResult :=
  let p := if sd > ed then (ed, sd) else (sd, ed)
  let start_date := p.1
  let end_date := p.2
  let business_days :=
    businessDaysLoop exclude_weekends (end_date + 1 - start_date).toNat start_date
  if business_days.isEmpty then
    .error "No working days in selected period"
  else
    let worklog_dates := worklogDates start_date end_date exclude_weekends me issues.flatten
    let total_days := business_days.length
    let days_with_logs := worklog_dates.card
    let missing_dates := business_days.filter (fun d => d ∉ worklog_dates)
    let percentage_complete :=
      if total_days > 0 then pyRound (((days_with_logs : ℚ) / (total_days : ℚ)) * 100) else 0
    .ok
      { start_date := start_date
        end_date := end_date
        total_days := total_days
        days_with_logs := days_with_logs
        days_missing := (total_days : ℤ) - (days_with_logs : ℤ)
        missing_dates := missing_dates
        percentage_complete := percentage_complete }

/-- Model of `get_timesheet_completeness(jira, jira_username, start_date_str,
end_date_str, exclude_weekends)` from src/dashboard/jira_logic.py lines
492–563: `dateparse` is the black-box `dateparser.parse(...).date()`
(`none` when parsing fails, in which case the `.date()` attribute error is
caught by the enclosing handler and reported). -/
def get_timesheet_completeness_range (dateparse : String → Option ℤ)
    (start_date_str end_date_str : String) (exclude_weekends : Bool)
    (me : MeDict) (issues : List (List WorklogEntry)) :
    Except String RangeCompletenessResult :=
  match dateparse start_date_str, dateparse end_date_str with
  | some sd, some ed => rangeCompletenessCore sd ed exclude_weekends me issues
  | _, _ =>
    .error "Error calculating timesheet completeness: NoneType has no attribute date"

/-! ## Legacy work-hours CLI (src/jira_work_hours/core.py) -/

/-- A worklog as consumed by `get_jira_details` in
src/jira_work_hours/core.py: `startedDate` is the date produced by its
strptime/fromisoformat chain (`none` when every attempt raises), and the
author's `name` attribute is accessed directly. -/
structure CoreWorklog where
  startedDate : Option ℤ
  authorName : String
  timeSpentSeconds : ℚ
deriving DecidableEq, Repr

/-- The per-issue worklog loop of src/jira_work_hours/core.py (lines 52–66):
accumulates the running total; a worklog whose timestamp fails every parse
raises out of the loop (the `except ValueError` fallback itself raising),
which the section-level handler catches — processing stops.  Returns the
accumulated hours and whether the loop was aborted. -/
def coreWorklogLoop (jira_username : String) (target_date : ℤ) :
    List CoreWorklog → ℚ → ℚ × Bool
  | [], acc => (acc, false)
  | wl :: rest, acc =>
    match wl.startedDate with
    | none => (acc, true)
    | some d =>
      coreWorklogLoop jira_username target_date rest
        (if d = target_date ∧ pyLower wl.authorName = pyLower jira_username then
          acc + wl.timeSpentSeconds / 3600
        else acc)

/-- The `for issue in logged_issues` section of src/jira_work_hours/core.py
(lines 50–66): issues are processed in order; an abort inside one issue's
worklog loop aborts the remaining issues too. -/
def coreLoggedSection (jira_username : String) (target_date : ℤ) :
    List (List CoreWorklog) → ℚ → ℚ × Bool
  | [], acc => (acc, false)
  | wls :: rest, acc =>
    let r := coreWorklogLoop jira_username target_date wls acc
    if r.2 then (r.1, true)
    else coreLoggedSection jira_username target_date rest r.1

/-! ## Timestamp Normalizer (`_parse_iso_date`)

The callers use only the calendar date (`_parse_iso_date(s).date()`), so the
model returns the date directly.  `datetime.fromisoformat` and
`datetime.strptime(..., "%Y-%m-%dT%H:%M:%S")` are modelled at the character
level; `dateparser.parse` is a black-box parameter. -/

/-- A calendar date as year/month/day (used only by the normalizer model;
the aggregators use the integer-day model). -/
structure Ymd where
  year : Nat
  month : Nat
  day : Nat
deriving DecidableEq, Repr

/-- Numeric value of a digit character. -/
def digitVal (c : Char) : Nat := c.toNat - 48

/-- Read exactly `k` digits, most significant first. -/
def readFixed : Nat → Nat → List Char → Option (Nat × List Char)
  | 0, acc, cs => some (acc, cs)
  | k + 1, acc, cs =>
    match cs with
    | [] => none
    | c :: rest =>
      if c.isDigit then readFixed k (acc * 10 + digitVal c) rest else none

/-- Read one or two digits (strptime's `%m`, `%d`, `%H`, `%M`, `%S`). -/
def readVar2 : List Char → Option (Nat × List Char)
  | [] => none
  | c :: rest =>
    if c.isDigit then
      match rest with
      | d :: rest2 =>
        if d.isDigit then some (digitVal c * 10 + digitVal d, rest2)
        else some (digitVal c, rest)
      | [] => some (digitVal c, [])
    else none

/-- Consume a required single character. -/
def expectChar (c : Char) : List Char → Option (List Char)
  | [] => none
  | x :: rest => if x = c then some rest else none

def isLeap (y : Nat) : Bool := (y % 4 == 0 && y % 100 != 0) || y % 400 == 0

def daysInMonth (y m : Nat) : Nat :=
  if m = 2 then (if isLeap y then 29 else 28)
  else if m = 4 ∨ m = 6 ∨ m = 9 ∨ m = 11 then 30
  else 31

/-- The `datetime` constructor's field validation. -/
def validYmd (y m d : Nat) : Bool :=
  1 ≤ y && y ≤ 9999 && 1 ≤ m && m ≤ 12 && 1 ≤ d && d ≤ daysInMonth y m

def validHms (h mi s : Nat) : Bool := h < 24 && mi < 60 && s < 60

/-- A UTC-offset suffix `±HH:MM[:SS[.f+]]` consuming the rest of the string
(or no suffix at all). -/
def parseOffsetEnd : List Char → Bool
  | [] => true
  | c :: rest =>
    (c = '+' || c = '-') &&
    match readFixed 2 0 rest with
    | none => false
    | some (oh, r1) =>
      match expectChar ':' r1 with
      | none => false
      | some r2 =>
        match readFixed 2 0 r2 with
        | none => false
        | some (om, r3) =>
          decide (oh < 24) && decide (om < 60) &&
          match r3 with
          | [] => true
          | ':' :: r4 =>
            match readFixed 2 0 r4 with
            | none => false
            | some (os, r5) =>
              decide (os < 60) &&
              match r5 with
              | [] => true
              | '.' :: r6 =>
                match r6 with
                | [] => false
                | c2 :: _ => c2.isDigit && (r6.dropWhile Char.isDigit).isEmpty
              | _ => false
          | _ => false

/-- The ISO time-of-day part `HH[:MM[:SS[.f+]]]` followed by an optional
offset, consuming the rest of the string. -/
def parseTimeEnd (cs : List Char) : Bool :=
  match readFixed 2 0 cs with
  | none => false
  | some (h, r1) =>
    decide (h < 24) &&
    match r1 with
    | ':' :: r2 =>
      match readFixed 2 0 r2 with
      | none => false
      | some (mi, r3) =>
        decide (mi < 60) &&
        match r3 with
        | ':' :: r4 =>
          match readFixed 2 0 r4 with
          | none => false
          | some (s, r5) =>
            decide (s < 60) &&
            match r5 with
            | '.' :: r6 =>
              (match r6 with
                | [] => false
                | c2 :: _ => c2.isDigit) && parseOffsetEnd (r6.dropWhile Char.isDigit)
            | _ => parseOffsetEnd r5
        | _ => parseOffsetEnd r3
    | _ => parseOffsetEnd r1

/-- Model of `datetime.fromisoformat` restricted to what the callers use: strict
`YYYY-MM-DD`, optionally followed by a one-character separator and a time
part with optional fraction and offset; only the calendar date is kept. -/
def fromisoformat (cs : List Char) : Option Ymd :=
  match readFixed 4 0 cs with
  | none => none
  | some (y, r1) =>
    match expectChar '-' r1 with
    | none => none
    | some r2 =>
      match readFixed 2 0 r2 with
      | none => none
      | some (m, r3) =>
        match expectChar '-' r3 with
        | none => none
        | some r4 =>
          match readFixed 2 0 r4 with
          | none => none
          | some (d, r5) =>
            if validYmd y m d then
              match r5 with
              | [] => some ⟨y, m, d⟩
              | _sep :: rest => if parseTimeEnd rest then some ⟨y, m, d⟩ else none
            else none

/-- Model of `datetime.strptime(base, "%Y-%m-%dT%H:%M:%S")`: four-digit year,
one-or-two-digit remaining fields, literal separators, whole string
consumed, fields validated. -/
def strptime_YmdTHMS (cs : List Char) : Option Ymd :=
  match readFixed 4 0 cs with
  | none => none
  | some (y, r1) =>
    match expectChar '-' r1 with
    | none => none
    | some r2 =>
      match readVar2 r2 with
      | none => none
      | some (m, r3) =>
        match expectChar '-' r3 with
        | none => none
        | some r4 =>
          match readVar2 r4 with
          | none => none
          | some (d, r5) =>
            match expectChar 'T' r5 with
            | none => none
            | some r6 =>
              match readVar2 r6 with
              | none => none
              | some (h, r7) =>
                match expectChar ':' r7 with
                | none => none
                | some r8 =>
                  match readVar2 r8 with
                  | none => none
                  | some (mi, r9) =>
                    match expectChar ':' r9 with
                    | none => none
                    | some r10 =>
                      match readVar2 r10 with
                      | none => none
                      | some (s, r11) =>
                        if r11.isEmpty && validYmd y m d && validHms h mi s then
                          some ⟨y, m, d⟩
                        else none

/-- Python `dt_str.replace("Z", "+00:00")`: every `'Z'` becomes `+00:00`. -/
def replaceZ : List Char → List Char
  | [] => []
  | c :: rest =>
    if c = 'Z' then '+' :: '0' :: '0' :: ':' :: '0' :: '0' :: replaceZ rest
    else c :: replaceZ rest

/-- Python `dt_str.split("+")[0].split(".")[0]`. -/
def stripPlusFrac (cs : List Char) : List Char :=
  (cs.takeWhile (fun c => c ≠ '+')).takeWhile (fun c => c ≠ '.')

/-- Model of `_parse_iso_date(dt_str)` from src/dashboard/jira_logic.py lines 33–50
(identical in src/main.py lines 129–140), composed with `.date()`:
(a) `fromisoformat` after replacing `Z`; (b) on failure, `strptime` of the
string with `+offset` and fraction stripped; (c) on failure, the black-box
`dateparser.parse`; error when all three fail. -/
def _parse_iso_date (dateparse : String → Option Ymd) (dt_str : String) :
    Except String Ymd :=
  match fromisoformat (replaceZ dt_str.data) with
  | some d => .ok d
  | none =>
    match strptime_YmdTHMS (stripPlusFrac dt_str.data) with
    | some d => .ok d
    | none =>
      match dateparse dt_str with
      | some d => .ok d
      | none => .error ("Unrecognized datetime format: " ++ dt_str)

/-! Canonical textual representations of a timestamp, used to state the
normalizer's date-preservation property (spec §8). -/

/-- The digit character of `n % 10`-style values. -/
def dchar (n : Nat) : Char := Char.ofNat (48 + n)

def pad2 (n : Nat) : List Char := [dchar (n / 10), dchar (n % 10)]

def pad3 (n : Nat) : List Char := [dchar (n / 100), dchar (n / 10 % 10), dchar (n % 10)]

def pad4 (n : Nat) : List Char :=
  [dchar (n / 1000), dchar (n / 100 % 10), dchar (n / 10 % 10), dchar (n % 10)]

/-- The `YYYY-MM-DDTHH:MM:SS` chars of a timestamp. -/
def isoChars (y m d h mi s : Nat) : List Char :=
  pad4 y ++ '-' :: pad2 m ++ '-' :: pad2 d ++ 'T' :: pad2 h ++ ':' :: pad2 mi
    ++ ':' :: pad2 s

/-- Plain ISO timestamp `YYYY-MM-DDTHH:MM:SS`. -/
def isoTimestamp (y m d h mi s : Nat) : String := ⟨isoChars y m d h mi s⟩

/-- Fractional-second ISO timestamp `YYYY-MM-DDTHH:MM:SS.fff`. -/
def isoTimestampFrac (y m d h mi s f : Nat) : String :=
  ⟨isoChars y m d h mi s ++ '.' :: pad3 f⟩

/-- UTC-suffixed ISO timestamp `YYYY-MM-DDTHH:MM:SSZ`. -/
def isoTimestampZ (y m d h mi s : Nat) : String :=
  ⟨isoChars y m d h mi s ++ ['Z']⟩

/-- Concrete input for the C1 counterexample: one issue of type `Bug` with a
positive author-matched window-hour, so scoring fails with a `DomainError`
reason. -/
def c1Issues : List IssueData :=
  [⟨"B-1", "s", some "Bug", "Open", none, some 3600,
    [⟨some ⟨some "A", none, none⟩, some 0, 3600⟩]⟩]

/-- The range report over `c1Issues`. -/
def c1Report : RangeReport :=
  rangeAggregate ["Project Development"] {0} ⟨some "A", none, none, none⟩ c1Issues

/-- A concrete stand-in for the black-box `dateparser.parse(...).date()`,
used to exercise the range-completeness symmetry at a reversed range. -/
def c10Parse : String → Option ℤ :=
  fun str => if str = "a" then some 10 else if str = "b" then some 3 else none

/-! ## Theorems -/

lemma mem_datesLoop {excl : Bool} {hol : Finset ℤ} {n : Nat} {cur d : ℤ} :
    d ∈ datesLoop excl hol n cur ↔
      ∃ i : Nat, i < n ∧ d = cur + i ∧
        (excl = false ∨ pyWeekday d < 5) ∧ d ∉ hol := by
  induction n generalizing cur with
  | zero => simp [datesLoop]
  | succ n ih =>
    simp only [datesLoop]
    by_cases h : (excl = false ∨ pyWeekday cur < 5) ∧ cur ∉ hol
    · simp only [if_pos h, Finset.mem_insert, ih]
      constructor
      · rintro (rfl | ⟨i, hi, rfl, hc⟩)
        · exact ⟨0, by omega, by push_cast; ring, h⟩
        · exact ⟨i + 1, by omega, by push_cast; ring, hc⟩
      · rintro ⟨i, hi, rfl, hc⟩
        cases i with
        | zero => left; push_cast; ring
        | succ i => right; exact ⟨i, by omega, by push_cast; ring, hc⟩
    · simp only [if_neg h, ih]
      constructor
      · rintro ⟨i, hi, rfl, hc⟩
        exact ⟨i + 1, by omega, by push_cast; ring, hc⟩
      · rintro ⟨i, hi, rfl, hc⟩
        cases i with
        | zero => exact absurd (by simpa using hc) h
        | succ i => exact ⟨i, by omega, by push_cast; ring, hc⟩

lemma mem_dates_in_range {s e : ℤ} {excl : Bool} {hol : Finset ℤ} {d : ℤ} :
    d ∈ _dates_in_range s e excl hol ↔
      s ≤ d ∧ d ≤ e ∧ (excl = false ∨ pyWeekday d < 5) ∧ d ∉ hol := by
  rw [_dates_in_range, mem_datesLoop]
  constructor
  · rintro ⟨i, hi, rfl, hc⟩
    refine ⟨by omega, ?_, hc⟩
    omega
  · rintro ⟨h1, h2, hc⟩
    exact ⟨(d - s).toNat, by omega, by omega, hc⟩

lemma rangeAggregate_spec (types : List String) (included : Finset ℤ)
    (me : MeDict) (issues : List IssueData) :
    (rangeAggregate types included me issues).issues_without_productivity =
      issues.filterMap (fun i =>
        if rangeLoggedHours included me i.worklogs > 0 then
          match get_issue_productivity types i with
          | .ok _ => none
          | .error e => some ⟨i.key, round2 (rangeLoggedHours included me i.worklogs), e⟩
        else none) ∧
    (rangeAggregate types included me issues).total_logged_in_range =
      ((issues.filter (fun i => decide (rangeLoggedHours included me i.worklogs > 0)
          && (get_issue_productivity types i).isOk)).map
        (fun i => rangeLoggedHours included me i.worklogs)).sum := by
  induction issues with
  | nil => exact ⟨rfl, rfl⟩
  | cons i rest ih =>
    simp only [rangeAggregate, List.filterMap_cons, List.filter_cons]
    by_cases hrh : rangeLoggedHours included me i.worklogs > 0
    · cases hsc : get_issue_productivity types i with
      | ok r => simp [hrh, hsc, ih.1, ih.2, Except.isOk, Except.toBool]
      | error e => simp [hrh, hsc, ih.1, ih.2, Except.isOk, Except.toBool]
    · simp [hrh, ih.1, ih.2]

lemma dailyAggregate_spec (types : List String) (target : ℤ)
    (me : MeDict) (issues : List IssueData) :
    (dailyAggregate types target me issues).issues_without_productivity =
      issues.filterMap (fun i =>
        if dateLoggedHours target me i.worklogs > 0 then
          match get_issue_productivity types i with
          | .ok _ => none
          | .error e => some ⟨i.key, round2 (dateLoggedHours target me i.worklogs), e⟩
        else none) ∧
    (dailyAggregate types target me issues).total_logged_in_range =
      ((issues.filter (fun i => decide (dateLoggedHours target me i.worklogs > 0)
          && (get_issue_productivity types i).isOk)).map
        (fun i => dateLoggedHours target me i.worklogs)).sum := by
  induction issues with
  | nil => exact ⟨rfl, rfl⟩
  | cons i rest ih =>
    simp only [dailyAggregate, List.filterMap_cons, List.filter_cons]
    by_cases hrh : dateLoggedHours target me i.worklogs > 0
    · cases hsc : get_issue_productivity types i with
      | ok r => simp [hrh, hsc, ih.1, ih.2, Except.isOk, Except.toBool]
      | error e => simp [hrh, hsc, ih.1, ih.2, Except.isOk, Except.toBool]
    · simp [hrh, ih.1, ih.2]

/-- C1 (amended): in the range and daily aggregators, an issue with positive
window-hours whose scoring fails is bucketed into
`issues_without_productivity` with its rounded window-hours and reason
retained, but the report's total window-hours
(`total_logged_in_range` / `total_logged`) is the sum of window-hours over
the *scored* issues only — excluded issues' window-hours are not added to
the total. -/
theorem c1_window_hours_totals (types : List String) (included : Finset ℤ)
    (target : ℤ) (me : MeDict) (issues : List IssueData) :
    ((rangeAggregate types included me issues).issues_without_productivity =
      issues.filterMap (fun i =>
        if rangeLoggedHours included me i.worklogs > 0 then
          match get_issue_productivity types i with
          | .ok _ => none
          | .error e => some ⟨i.key, round2 (rangeLoggedHours included me i.worklogs), e⟩
        else none)) ∧
    ((rangeAggregate types included me issues).total_logged_in_range =
      ((issues.filter (fun i => decide (rangeLoggedHours included me i.worklogs > 0)
          && (get_issue_productivity types i).isOk)).map
        (fun i => rangeLoggedHours included me i.worklogs)).sum) ∧
    ((dailyAggregate types target me issues).issues_without_productivity =
      issues.filterMap (fun i =>
        if dateLoggedHours target me i.worklogs > 0 then
          match get_issue_productivity types i with
          | .ok _ => none
          | .error e => some ⟨i.key, round2 (dateLoggedHours target me i.worklogs), e⟩
        else none)) ∧
    ((dailyAggregate types target me issues).total_logged_in_range =
      ((issues.filter (fun i => decide (dateLoggedHours target me i.worklogs > 0)
          && (get_issue_productivity types i).isOk)).map
        (fun i => dateLoggedHours target me i.worklogs)).sum) :=
  ⟨(rangeAggregate_spec types included me issues).1,
   (rangeAggregate_spec types included me issues).2,
   (dailyAggregate_spec types target me issues).1,
   (dailyAggregate_spec types target me issues).2⟩

/-- Counterexample to C1 as stated: over `c1Issues` the single issue has
window-hours 1 and fails scoring, so it sits in the excluded bucket with its
window-hours, yet `total_logged_in_range` is 0 — the reported total does
*not* equal the sum of window-hours over scored and excluded issues. -/
theorem c1_total_counterexample :
    ¬ (c1Report.total_logged_in_range =
        (c1Report.range_productivity.map (fun row => row.range_logged_hours)).sum
        + (c1Report.issues_without_productivity.map (fun row => row.range_logged_hours)).sum) := by
  norm_num +decide [c1Report, c1Issues, rangeAggregate, rangeLoggedHours,
    get_issue_productivity, strContains, isSubstrB, isPrefixOfB, pyLower, qTruthy,
    _extract_activity_type, calculate_productivity_score, round2, pyRound,
    _is_my_worklog, optTruthy]

/-- C4: for every pair of worklog-author identity and authenticated-user
identity, `_is_my_worklog` matches exactly per the spec's layered precedence
(equal non-empty account identifiers case-sensitively, else equal non-empty
short names case-insensitively, else equal non-empty display names
case-sensitively, else no match), and a worklog with no author record never
matches. -/
theorem c4_identity_matcher (wl_author : Option AuthorIdentity) (me : MeDict) :
    _is_my_worklog wl_author me = specIdentityMatch wl_author me ∧
    _is_my_worklog none me = false := by
  refine ⟨?_, rfl⟩
  cases wl_author with
  | none => rfl
  | some a =>
    simp only [_is_my_worklog, specIdentityMatch]
    cases hc1 : (optTruthy me.accountId && (a.accountId == me.accountId)) with
    | true =>
      have hm := (Bool.and_eq_true_iff.mp hc1).1
      have hb := (Bool.and_eq_true_iff.mp hc1).2
      have hx : a.accountId = me.accountId := by simpa using hb
      simp [hc1, hx, hm]
    | false =>
      cases hc2 : (optTruthy me.name && optTruthy a.name
          && ((a.name.map pyLower) == (me.name.map pyLower))) with
      | true =>
        have hb2 : (optTruthy a.name && optTruthy me.name
            && ((a.name.map pyLower) == (me.name.map pyLower))) = true := by
          rw [Bool.and_comm (optTruthy a.name) (optTruthy me.name)]; exact hc2
        simp [hb2]
      | false =>
        have hb2 : (optTruthy a.name && optTruthy me.name
            && ((a.name.map pyLower) == (me.name.map pyLower))) = false := by
          rw [Bool.and_comm (optTruthy a.name) (optTruthy me.name)]; exact hc2
        cases hc3 : (optTruthy me.displayName && (a.displayName == me.displayName)) with
        | true =>
          have hm3 := (Bool.and_eq_true_iff.mp hc3).1
          have hb3 := (Bool.and_eq_true_iff.mp hc3).2
          have hx : a.displayName = me.displayName := by simpa using hb3
          simp [hc1, hb2, hc3, hx, hm3]
        | false =>
          rcases Bool.and_eq_false_iff.mp hc1 with h1 | h1 <;>
            rcases Bool.and_eq_false_iff.mp hc3 with h3 | h3 <;>
              simp [h1, h3, hb2]

/-- C3: the claim says the who-am-i fallback identity carries the configured
username in its short-name field.  The src/main.py copy of `get_me` does;
the src/dashboard/jira_logic.py copy returns a fallback with *every* field
`None` (despite its own comment "Fallback to env username only"), after which
no worklog can ever match — the code diverges from the claim at this input. -/
theorem c3_who_am_i_fallback :
    get_me_dashboard none = ⟨none, none, none, none⟩ ∧
    (∀ wl_author, _is_my_worklog wl_author (get_me_dashboard none) = false) ∧
    (∀ u, get_me_cli u none = ⟨none, u, none, none⟩) := by
  refine ⟨rfl, ?_, fun u => rfl⟩
  intro a
  cases a with
  | none => rfl
  | some a => simp [_is_my_worklog, get_me_dashboard, optTruthy]

/-- C5: membership in the business calendar is exactly
`start ≤ d ≤ end ∧ (not exclude_weekends ∨ weekday(d) < 5) ∧ d ∉ holidays`;
a reversed range gives the empty set; the singleton range with weekends
excluded gives `{d}` iff `d` is a weekday; a holiday is never included. -/
theorem c5_business_calendar :
    (∀ (s e : ℤ) (excl : Bool) (hol : Finset ℤ) (d : ℤ),
        d ∈ _dates_in_range s e excl hol ↔
          s ≤ d ∧ d ≤ e ∧ (excl = false ∨ pyWeekday d < 5) ∧ d ∉ hol) ∧
    (∀ (s e : ℤ) (excl : Bool) (hol : Finset ℤ), e < s →
        _dates_in_range s e excl hol = ∅) ∧
    (∀ d : ℤ, _dates_in_range d d true ∅ =
        if pyWeekday d < 5 then {d} else ∅) ∧
    (∀ (s e : ℤ) (excl : Bool) (hol : Finset ℤ) (d : ℤ), d ∈ hol →
        d ∉ _dates_in_range s e excl hol) := by
  refine ⟨fun s e excl hol d => mem_dates_in_range, ?_, ?_, ?_⟩
  · intro s e excl hol h
    ext d
    simp only [mem_dates_in_range, Finset.not_mem_empty, iff_false]
    rintro ⟨h1, h2, -⟩
    omega
  · intro d
    by_cases hw : pyWeekday d < 5
    · rw [if_pos hw]
      ext x
      simp only [mem_dates_in_range, Finset.mem_singleton, Finset.not_mem_empty,
        not_false_eq_true, and_true]
      constructor
      · rintro ⟨h1, h2, -⟩
        omega
      · rintro rfl
        exact ⟨le_refl _, le_refl _, Or.inr hw⟩
    · rw [if_neg hw]
      ext x
      simp only [mem_dates_in_range, Finset.not_mem_empty, iff_false]
      rintro ⟨h1, h2, h3, -⟩
      have hx : x = d := by omega
      rcases h3 with h3 | h3
      · simp at h3
      · rw [hx] at h3
        exact hw h3
  · intro s e excl hol d hd
    rw [mem_dates_in_range]
    rintro ⟨-, -, -, h⟩
    exact h hd

/-- Witness for C5 at concrete inputs: day 3 of the week starting at the
model's Monday 0 is included in a weekday-only range; a reversed range is
empty; the singleton range follows the weekday test; a holiday is excluded. -/
theorem c5_business_calendar_witness :
    (3 : ℤ) ∈ _dates_in_range 0 6 true ∅ ∧
    _dates_in_range 5 2 true ∅ = ∅ ∧
    _dates_in_range 2 2 true ∅ = (if pyWeekday 2 < 5 then {2} else ∅) ∧
    (6 : ℤ) ∉ _dates_in_range 0 6 true {6} :=
  ⟨(c5_business_calendar.1 0 6 true ∅ 3).mpr (by decide),
   c5_business_calendar.2.1 5 2 true ∅ (by decide),
   c5_business_calendar.2.2.1 2,
   c5_business_calendar.2.2.2 0 6 true {6} 6 (by decide)⟩

/-- C2: for every accepted issue the record's `productivity_score` is
non-null iff `is_productive_activity`, and when non-null it is
`((estimated_hours − logged_hours) / estimated_hours) × 100` rounded to two
decimals; a Task/Story issue whose original estimate is `0` or absent is
rejected with the missing-estimate reason (no score of 0, no division). -/
theorem c2_issue_productivity (types : List String) (issue : IssueData) :
    (∀ r, get_issue_productivity types issue = .ok r →
        (r.productivity_score.isSome ↔ r.is_productive_activity = true) ∧
        (r.is_productive_activity = true →
          r.productivity_score = some (round2
            (((issue.timeoriginalestimate.getD 0 / 3600
                - (issue.worklogs.map (·.timeSpentSeconds / 3600)).sum)
              / (issue.timeoriginalestimate.getD 0 / 3600)) * 100)))) ∧
    ((issue.timeoriginalestimate = none ∨ issue.timeoriginalestimate = some 0) →
      (strContains (pyLower (issue.issuetypeName.getD "")) "task" = true ∨
        strContains (pyLower (issue.issuetypeName.getD "")) "story" = true) →
      get_issue_productivity types issue =
        .error ("Issue " ++ issue.key ++ " has no original time estimate")) := by
  constructor
  · intro r hr
    rw [get_issue_productivity] at hr
    split at hr
    · cases hr
    · split at hr
      · cases hr
      · rename_i ht he
        have hq : qTruthy issue.timeoriginalestimate = true := by
          revert he
          cases qTruthy issue.timeoriginalestimate <;> simp
        cases ho : issue.timeoriginalestimate with
        | none => rw [ho] at hq; cases hq
        | some x =>
          have hx : x ≠ 0 := by
            rw [ho] at hq
            simpa [qTruthy] using hq
          have hne : x / 3600 ≠ (0 : ℚ) := div_ne_zero hx (by norm_num)
          obtain rfl := (Except.ok.inj hr)
          cases hb : (match _extract_activity_type issue.activityField with
            | some v => types.contains v
            | none => false) with
          | true =>
            simp only [hb, if_pos, ho, Option.getD_some, calculate_productivity_score,
              if_neg hne]
            constructor
            · simp
            · intro _
              simp
          | false =>
            simp only [hb]
            constructor
            · simp
            · intro h
              cases h
  · intro hest htype
    have ht : (!strContains (pyLower (issue.issuetypeName.getD "")) "task"
        && !strContains (pyLower (issue.issuetypeName.getD "")) "story") = false := by
      rcases htype with h | h <;> simp [h]
    have hq : qTruthy issue.timeoriginalestimate = false := by
      rcases hest with h | h <;> simp [h, qTruthy]
    simp [get_issue_productivity, ht, hq]

/-- Witness for C2: the claim's own examples — estimate 10h with 7h logged on
a productive activity scores 30.0, with 15h logged scores −50.0, and a
0-second estimate is rejected with the missing-estimate reason. -/
theorem c2_issue_productivity_witness :
    get_issue_productivity ["Project Development"]
        ⟨"P-1", "s", some "Task", "Done", some (.objWithValue "Project Development"),
          some 36000, [⟨some ⟨some "A", none, none⟩, some 0, 25200⟩]⟩ =
      .ok ⟨"P-1", "s", some "Task", "Done", some "Project Development", 10, 7, some 30, true⟩ ∧
    ((some (30 : ℚ) : Option ℚ).isSome ↔ true = true) ∧
    get_issue_productivity ["Project Development"]
        ⟨"P-2", "s", some "Task", "Done", some (.objWithValue "Project Development"),
          some 36000, [⟨some ⟨some "A", none, none⟩, some 0, 54000⟩]⟩ =
      .ok ⟨"P-2", "s", some "Task", "Done", some "Project Development", 10, 15, some (-50), true⟩ ∧
    get_issue_productivity ["Project Development"]
        ⟨"P-0", "s", some "Task", "Done", some (.objWithValue "Project Development"),
          some 0, []⟩ =
      .error "Issue P-0 has no original time estimate" :=
  ⟨by
    norm_num +decide [get_issue_productivity, strContains, isSubstrB, isPrefixOfB, pyLower,
      qTruthy, _extract_activity_type, calculate_productivity_score, round2, pyRound],
   ((c2_issue_productivity ["Project Development"]
      ⟨"P-1", "s", some "Task", "Done", some (.objWithValue "Project Development"),
        some 36000, [⟨some ⟨some "A", none, none⟩, some 0, 25200⟩]⟩).1
      ⟨"P-1", "s", some "Task", "Done", some "Project Development", 10, 7, some 30, true⟩
      (by
        norm_num +decide [get_issue_productivity, strContains, isSubstrB, isPrefixOfB, pyLower,
          qTruthy, _extract_activity_type, calculate_productivity_score, round2, pyRound])).1,
   by
    norm_num +decide [get_issue_productivity, strContains, isSubstrB, isPrefixOfB, pyLower,
      qTruthy, _extract_activity_type, calculate_productivity_score, round2, pyRound],
   (c2_issue_productivity ["Project Development"]
      ⟨"P-0", "s", some "Task", "Done", some (.objWithValue "Project Development"),
        some 0, []⟩).2 (Or.inr rfl) (Or.inl (by decide))⟩

lemma coreWorklogLoop_append_bad (u : String) (t : ℤ) (pre post : List CoreWorklog)
    (b : CoreWorklog) (hb : b.startedDate = none)
    (hpre : ∀ w ∈ pre, w.startedDate ≠ none) :
    ∀ acc, coreWorklogLoop u t (pre ++ b :: post) acc
      = ((coreWorklogLoop u t pre acc).1, true) := by
  induction pre with
  | nil =>
    intro acc
    simp [coreWorklogLoop, hb]
  | cons w pre ih =>
    intro acc
    have hw : w.startedDate ≠ none := hpre w (by simp)
    cases hws : w.startedDate with
    | none => exact absurd hws hw
    | some d =>
      simp only [List.cons_append, coreWorklogLoop, hws]
      exact ih (fun w' hw' => hpre w' (by simp [hw'])) _

/-- C7 (amended): in the dashboard aggregators — the daily and range
window-hours loops and the timesheet loops (`logs_by_day` of the per-day gap
report and `worklog_dates` of the range completeness report) — a worklog
whose timestamp fails normalization is skipped individually: removing it
from the worklog list leaves the computed result unchanged.  In the legacy
work-hours CLI (src/jira_work_hours/core.py) a worklog whose timestamp fails
every parse instead aborts the rest of the work-logged section: the
remaining worklogs of its issue and all remaining issues are dropped. -/
theorem c7_malformed_worklog_handling :
    (∀ (target : ℤ) (me : MeDict) (ws1 ws2 : List WorklogEntry) (b : WorklogEntry),
        b.startedDate = none →
        dateLoggedHours target me (ws1 ++ b :: ws2) = dateLoggedHours target me (ws1 ++ ws2)) ∧
    (∀ (included : Finset ℤ) (me : MeDict) (ws1 ws2 : List WorklogEntry) (b : WorklogEntry),
        b.startedDate = none →
        rangeLoggedHours included me (ws1 ++ b :: ws2) = rangeLoggedHours included me (ws1 ++ ws2)) ∧
    (∀ (included : Finset ℤ) (me : MeDict) (ws1 ws2 : List WorklogEntry)
        (b : WorklogEntry) (d : ℤ),
        b.startedDate = none →
        logsByDay included me (ws1 ++ b :: ws2) d = logsByDay included me (ws1 ++ ws2) d) ∧
    (∀ (sd ed : ℤ) (exclW : Bool) (me : MeDict) (ws1 ws2 : List WorklogEntry)
        (b : WorklogEntry),
        b.startedDate = none →
        worklogDates sd ed exclW me (ws1 ++ b :: ws2)
          = worklogDates sd ed exclW me (ws1 ++ ws2)) ∧
    (∀ (u : String) (t : ℤ) (pre post : List CoreWorklog)
        (more : List (List CoreWorklog)) (acc : ℚ) (b : CoreWorklog),
        b.startedDate = none → (∀ w ∈ pre, w.startedDate ≠ none) →
        coreLoggedSection u t ((pre ++ b :: post) :: more) acc
          = ((coreWorklogLoop u t pre acc).1, true)) := by
  refine ⟨?_, ?_, ?_, ?_, ?_⟩
  · intro t me ws1 ws2 b hb
    simp only [dateLoggedHours, List.foldl_append, List.foldl_cons, hb]
  · intro included me ws1 ws2 b hb
    simp only [rangeLoggedHours, List.foldl_append, List.foldl_cons, hb]
  · intro included me ws1 ws2 b d hb
    simp only [logsByDay, List.foldl_append, List.foldl_cons, hb]
  · intro sd ed exclW me ws1 ws2 b hb
    simp only [worklogDates, List.foldl_append, List.foldl_cons, hb]
  · intro u t pre post more acc b hb hpre
    simp [coreLoggedSection, coreWorklogLoop_append_bad u t pre post b hb hpre acc]

/-- Witness for C7 (amended): the daily window-hours loop, the per-day
timesheet accumulation and the range-completeness date set each give the
same result with a malformed middle worklog as without it, and the CLI
section with a malformed first worklog aborts with the hours accumulated so
far. -/
theorem c7_malformed_worklog_handling_witness :
    dateLoggedHours 0 ⟨some "A", none, none, none⟩
        ([⟨some ⟨some "A", none, none⟩, some 0, 3600⟩]
          ++ (⟨some ⟨some "A", none, none⟩, none, 7200⟩ : WorklogEntry)
            :: [⟨some ⟨some "A", none, none⟩, some 0, 1800⟩])
      = dateLoggedHours 0 ⟨some "A", none, none, none⟩
        ([⟨some ⟨some "A", none, none⟩, some 0, 3600⟩]
          ++ [⟨some ⟨some "A", none, none⟩, some 0, 1800⟩]) ∧
    logsByDay ({0} : Finset ℤ) ⟨some "A", none, none, none⟩
        ([⟨some ⟨some "A", none, none⟩, some 0, 3600⟩]
          ++ (⟨some ⟨some "A", none, none⟩, none, 7200⟩ : WorklogEntry)
            :: [⟨some ⟨some "A", none, none⟩, some 0, 1800⟩]) 0
      = logsByDay ({0} : Finset ℤ) ⟨some "A", none, none, none⟩
        ([⟨some ⟨some "A", none, none⟩, some 0, 3600⟩]
          ++ [⟨some ⟨some "A", none, none⟩, some 0, 1800⟩]) 0 ∧
    worklogDates 0 5 true ⟨some "A", none, none, none⟩
        ([⟨some ⟨some "A", none, none⟩, some 0, 3600⟩]
          ++ (⟨some ⟨some "A", none, none⟩, none, 7200⟩ : WorklogEntry)
            :: [⟨some ⟨some "A", none, none⟩, some 0, 1800⟩])
      = worklogDates 0 5 true ⟨some "A", none, none, none⟩
        ([⟨some ⟨some "A", none, none⟩, some 0, 3600⟩]
          ++ [⟨some ⟨some "A", none, none⟩, some 0, 1800⟩]) ∧
    coreLoggedSection "u" 0 (([] ++ (⟨none, "u", 3600⟩ : CoreWorklog)
        :: [⟨some 0, "u", 28800⟩]) :: [[⟨some 0, "u", 3600⟩]]) 0
      = ((coreWorklogLoop "u" 0 [] 0).1, true) :=
  ⟨c7_malformed_worklog_handling.1 0 ⟨some "A", none, none, none⟩
      [⟨some ⟨some "A", none, none⟩, some 0, 3600⟩]
      [⟨some ⟨some "A", none, none⟩, some 0, 1800⟩]
      ⟨some ⟨some "A", none, none⟩, none, 7200⟩ rfl,
   c7_malformed_worklog_handling.2.2.1 {0} ⟨some "A", none, none, none⟩
      [⟨some ⟨some "A", none, none⟩, some 0, 3600⟩]
      [⟨some ⟨some "A", none, none⟩, some 0, 1800⟩]
      ⟨some ⟨some "A", none, none⟩, none, 7200⟩ 0 rfl,
   c7_malformed_worklog_handling.2.2.2.1 0 5 true ⟨some "A", none, none, none⟩
      [⟨some ⟨some "A", none, none⟩, some 0, 3600⟩]
      [⟨some ⟨some "A", none, none⟩, some 0, 1800⟩]
      ⟨some ⟨some "A", none, none⟩, none, 7200⟩ rfl,
   c7_malformed_worklog_handling.2.2.2.2 "u" 0 [] [⟨some 0, "u", 28800⟩]
      [[⟨some 0, "u", 3600⟩]] 0 ⟨none, "u", 3600⟩ rfl (by simp)⟩

/-- Counterexample to C7 as stated: in the legacy CLI's work-logged section
a malformed worklog is *not* merely skipped — with it present the 8 hours of
the following parseable worklog are lost, so the totals differ from the run
without the malformed worklog. -/
theorem c7_core_abort_counterexample :
    (coreLoggedSection "u" 0 [[⟨none, "u", 3600⟩, ⟨some 0, "u", 28800⟩]] 0).1
      ≠ (coreLoggedSection "u" 0 [[⟨some 0, "u", 28800⟩]] 0).1 := by
  norm_num [coreLoggedSection, coreWorklogLoop, pyLower]

lemma storyLoop_spec (DONE : List String) (subs : List (Option SubtaskData)) :
    storyLoop DONE subs =
      (((subs.filterMap id).filter (fun s => is_done_status DONE s.statusName
          && qTruthy s.timeoriginalestimate)).map
        (fun s => (⟨s.key, s.statusName, round2 (s.timeoriginalestimate.getD 0 / 3600),
            round2 (_collect_logged_hours s.worklogSeconds)⟩ : IncludedSubtaskRow)),
       (((subs.filterMap id).filter (fun s => is_done_status DONE s.statusName
          && qTruthy s.timeoriginalestimate)).map
        (fun s => s.timeoriginalestimate.getD 0 / 3600)).sum,
       (((subs.filterMap id).filter (fun s => is_done_status DONE s.statusName
          && qTruthy s.timeoriginalestimate)).map
        (fun s => _collect_logged_hours s.worklogSeconds)).sum,
       ((subs.filterMap id).filter (fun s => is_done_status DONE s.statusName
          && !qTruthy s.timeoriginalestimate)).length) := by
  induction subs with
  | nil => rfl
  | cons sub? rest ih =>
    cases sub? with
    | none => simpa [storyLoop, List.filterMap_cons] using ih
    | some sub =>
      by_cases hd : is_done_status DONE sub.statusName = true
      · by_cases hq : qTruthy sub.timeoriginalestimate = true
        · simp [storyLoop, List.filterMap_cons, List.filter_cons, hd, hq, ih]
        · simp only [Bool.not_eq_true] at hq
          simp [storyLoop, List.filterMap_cons, List.filter_cons, hd, hq, ih]
      · simp only [Bool.not_eq_true] at hd
        simp [storyLoop, List.filterMap_cons, List.filter_cons, hd, ih]

/-- C8: the Story Aggregator includes exactly the fetched subtasks that are
done-like with a nonzero estimate, accumulating each one's estimate and its
total (un-author-filtered) worklog hours; done-like subtasks without an
estimate only increment the excluded-missing-estimate count; non-done and
fetch-failed subtasks appear in no count; the aggregate score applies the
productivity formula to the summed totals only when the summed estimate is
positive.  The claim's concrete story (done 2h/1h and 3h/3h, non-done 10h)
yields estimate 5, logged 4, score 20, excluded 0, included 2. -/
theorem c8_story_aggregator :
    (∀ (DONE : List String) (subs : List (Option SubtaskData)),
      (get_story_aggregate_productivity DONE subs).included_subtasks =
        (((subs.filterMap id).filter (fun s => is_done_status DONE s.statusName
            && qTruthy s.timeoriginalestimate)).map
          (fun s => (⟨s.key, s.statusName, round2 (s.timeoriginalestimate.getD 0 / 3600),
              round2 (_collect_logged_hours s.worklogSeconds)⟩ : IncludedSubtaskRow))) ∧
      (get_story_aggregate_productivity DONE subs).included_subtasks_count =
        ((subs.filterMap id).filter (fun s => is_done_status DONE s.statusName
            && qTruthy s.timeoriginalestimate)).length ∧
      (get_story_aggregate_productivity DONE subs).excluded_subtasks_missing_estimate =
        ((subs.filterMap id).filter (fun s => is_done_status DONE s.statusName
            && !qTruthy s.timeoriginalestimate)).length ∧
      (get_story_aggregate_productivity DONE subs).aggregated_estimated_hours =
        round2 ((((subs.filterMap id).filter (fun s => is_done_status DONE s.statusName
            && qTruthy s.timeoriginalestimate)).map
          (fun s => s.timeoriginalestimate.getD 0 / 3600)).sum) ∧
      (get_story_aggregate_productivity DONE subs).aggregated_logged_hours =
        round2 ((((subs.filterMap id).filter (fun s => is_done_status DONE s.statusName
            && qTruthy s.timeoriginalestimate)).map
          (fun s => _collect_logged_hours s.worklogSeconds)).sum) ∧
      (get_story_aggregate_productivity DONE subs).aggregated_productivity_score =
        (if 0 < (((subs.filterMap id).filter (fun s => is_done_status DONE s.statusName
              && qTruthy s.timeoriginalestimate)).map
            (fun s => s.timeoriginalestimate.getD 0 / 3600)).sum then
          some (round2 ((((((subs.filterMap id).filter (fun s => is_done_status DONE s.statusName
                && qTruthy s.timeoriginalestimate)).map
              (fun s => s.timeoriginalestimate.getD 0 / 3600)).sum
              - (((subs.filterMap id).filter (fun s => is_done_status DONE s.statusName
                && qTruthy s.timeoriginalestimate)).map
              (fun s => _collect_logged_hours s.worklogSeconds)).sum)
              / (((subs.filterMap id).filter (fun s => is_done_status DONE s.statusName
                && qTruthy s.timeoriginalestimate)).map
              (fun s => s.timeoriginalestimate.getD 0 / 3600)).sum) * 100))
        else none)) ∧
    get_story_aggregate_productivity ["done", "closed", "resolved", "completed"]
        [some ⟨"SUB-1", "a", some "Done", some 7200, some [3600]⟩,
         some ⟨"SUB-2", "b", some "Done", some 10800, some [10800]⟩,
         some ⟨"SUB-3", "c", some "In Progress", some 36000, some []⟩] =
      ⟨[⟨"SUB-1", some "Done", 2, 1⟩, ⟨"SUB-2", some "Done", 3, 3⟩], 2, 0, 5, 4, some 20⟩ := by
  constructor
  · intro DONE subs
    have hs := storyLoop_spec DONE subs
    refine ⟨?_, ?_, ?_, ?_, ?_, ?_⟩ <;>
      simp only [get_story_aggregate_productivity, hs, List.length_map]
    by_cases hpos : 0 < (((subs.filterMap id).filter
          (fun s => is_done_status DONE s.statusName
            && qTruthy s.timeoriginalestimate)).map
          (fun s => s.timeoriginalestimate.getD 0 / 3600)).sum
    · have hne : (((subs.filterMap id).filter
          (fun s => is_done_status DONE s.statusName
            && qTruthy s.timeoriginalestimate)).map
          (fun s => s.timeoriginalestimate.getD 0 / 3600)).sum ≠ 0 := ne_of_gt hpos
      simp [hpos, calculate_productivity_score, hne]
    · simp [hpos]
  · norm_num +decide [get_story_aggregate_productivity, storyLoop, is_done_status,
      qTruthy, _collect_logged_hours, calculate_productivity_score, round2, pyRound,
      pyLower]

/-- C9: every business-calendar day's reported gap is
`max(0, target − logged_hours)` (with `logged_hours` the day's reported,
rounded logged hours), no gap is negative, a day with zero logged hours
contributes the full target, and `total_gap` is the sum of the per-day
gaps. -/
theorem c9_timesheet_gaps (W : ℚ) (included : Finset ℤ) (me : MeDict)
    (issues : List (List WorklogEntry)) (hW : 0 ≤ W) :
    (∀ r ∈ (get_timesheet_completeness_days W included me issues).1,
        r.gap_hours = max 0 (W - r.logged_hours) ∧ 0 ≤ r.gap_hours ∧
        (r.logged_hours = 0 → r.gap_hours = W)) ∧
    (get_timesheet_completeness_days W included me issues).2 =
      ((get_timesheet_completeness_days W included me issues).1.map
        (fun r => r.gap_hours)).sum := by
  constructor
  · intro r hr
    simp only [get_timesheet_completeness_days, List.mem_map] at hr
    obtain ⟨d, -, rfl⟩ := hr
    refine ⟨rfl, le_max_left _ _, ?_⟩
    intro h0
    simp only at h0 ⊢
    rw [h0, sub_zero]
    exact max_eq_right hW
  · simp only [get_timesheet_completeness_days, List.map_map]
    rfl

/-- Witness for C9: the claim's example — target 8h over the two business
days `{0, 1}` with 5h logged on day 0 and nothing on day 1 gives gaps
`[3, 8]` and total gap 11, and the total is the sum of the per-day gaps by
the theorem. -/
theorem c9_timesheet_gaps_witness :
    ((0 : ℚ) ≤ 8) ∧
    (get_timesheet_completeness_days 8 ({0, 1} : Finset ℤ)
        ⟨some "A", none, none, none⟩
        [[⟨some ⟨some "A", none, none⟩, some 0, 18000⟩]]).1.map (fun r => r.gap_hours)
      = [3, 8] ∧
    (get_timesheet_completeness_days 8 ({0, 1} : Finset ℤ)
        ⟨some "A", none, none, none⟩
        [[⟨some ⟨some "A", none, none⟩, some 0, 18000⟩]]).2 = 11 ∧
    (get_timesheet_completeness_days 8 ({0, 1} : Finset ℤ)
        ⟨some "A", none, none, none⟩
        [[⟨some ⟨some "A", none, none⟩, some 0, 18000⟩]]).2 =
      ((get_timesheet_completeness_days 8 ({0, 1} : Finset ℤ)
          ⟨some "A", none, none, none⟩
          [[⟨some ⟨some "A", none, none⟩, some 0, 18000⟩]]).1.map
        (fun r => r.gap_hours)).sum := by
  have h1 : ∀ b ∈ ({1} : Finset ℤ), (0 : ℤ) ≤ b := by decide
  have h2 : (0 : ℤ) ∉ ({1} : Finset ℤ) := by decide
  have hsort : ({0, 1} : Finset ℤ).sort (· ≤ ·) = [0, 1] := by
    rw [Finset.sort_insert (· ≤ ·) h1 h2, Finset.sort_singleton]
  refine ⟨by norm_num, ?_, ?_,
    (c9_timesheet_gaps 8 {0, 1} ⟨some "A", none, none, none⟩
      [[⟨some ⟨some "A", none, none⟩, some 0, 18000⟩]] (by norm_num)).2⟩ <;>
    norm_num +decide [get_timesheet_completeness_days, hsort, logsByDay,
      _is_my_worklog, optTruthy, round2, pyRound]

lemma minmax_swap (a b : ℤ) :
    (if a > b then (b, a) else (a, b)) = (if b > a then (a, b) else (b, a)) := by
  rcases lt_trichotomy a b with h | h | h
  · rw [if_neg (by omega), if_pos (by omega)]
  · subst h
    simp
  · rw [if_pos (by omega), if_neg (by omega)]

lemma rangeCompletenessCore_comm (sd ed : ℤ) (exclW : Bool) (me : MeDict)
    (issues : List (List WorklogEntry)) :
    rangeCompletenessCore sd ed exclW me issues
      = rangeCompletenessCore ed sd exclW me issues := by
  have h := minmax_swap sd ed
  simp only [rangeCompletenessCore]
  rw [h]

/-- C10: for parseable start/end strings the range-based
timesheet-completeness operation is symmetric in its two date arguments —
a reversed range is swapped and produces the identical
days-with-logs/missing-dates report. -/
theorem c10_range_completeness_symmetric (dateparse : String → Option ℤ)
    (s e : String) (exclW : Bool) (me : MeDict)
    (issues : List (List WorklogEntry)) (ds de : ℤ)
    (hs : dateparse s = some ds) (he : dateparse e = some de) :
    get_timesheet_completeness_range dateparse s e exclW me issues
      = get_timesheet_completeness_range dateparse e s exclW me issues := by
  simp only [get_timesheet_completeness_range, hs, he]
  exact rangeCompletenessCore_comm ds de exclW me issues

/-- Witness for C10: with a parse function sending `"a" ↦ 10` and `"b" ↦ 3`,
the report for the reversed range `("a", "b")` equals the report for
`("b", "a")`. -/
theorem c10_range_completeness_symmetric_witness :
    c10Parse "a" = some 10 ∧ c10Parse "b" = some 3 ∧
    get_timesheet_completeness_range c10Parse "a" "b" true
        ⟨some "A", none, none, none⟩ [[⟨some ⟨some "A", none, none⟩, some 4, 3600⟩]]
      = get_timesheet_completeness_range c10Parse "b" "a" true
        ⟨some "A", none, none, none⟩ [[⟨some ⟨some "A", none, none⟩, some 4, 3600⟩]] :=
  ⟨by decide, by decide,
   c10_range_completeness_symmetric c10Parse "a" "b" true
     ⟨some "A", none, none, none⟩ [[⟨some ⟨some "A", none, none⟩, some 4, 3600⟩]]
     10 3 (by decide) (by decide)⟩

/-! Auxiliary lemmas for the Timestamp Normalizer theorem. -/

lemma daysInMonth_le (y m : Nat) : daysInMonth y m ≤ 31 := by
  unfold daysInMonth
  split
  · split <;> omega
  · split <;> omega

lemma dchar_digit {n : Nat} (h : n < 10) :
    (dchar n).isDigit = true ∧ digitVal (dchar n) = n := by
  interval_cases n <;> exact ⟨by decide, by decide⟩

lemma dchar_ne_Z {n : Nat} (h : n < 10) : dchar n ≠ 'Z' := by
  interval_cases n <;> decide

lemma pad2_no_Z {n : Nat} (h : n < 100) : ∀ c ∈ pad2 n, c ≠ 'Z' := by
  intro c hc
  have h1 : n / 10 < 10 := by omega
  have h2 : n % 10 < 10 := by omega
  simp only [pad2, List.mem_cons, List.not_mem_nil, or_false] at hc
  rcases hc with rfl | rfl
  · exact dchar_ne_Z h1
  · exact dchar_ne_Z h2

lemma pad3_no_Z {n : Nat} (h : n < 1000) : ∀ c ∈ pad3 n, c ≠ 'Z' := by
  intro c hc
  have h1 : n / 100 < 10 := by omega
  have h2 : n / 10 % 10 < 10 := by omega
  have h3 : n % 10 < 10 := by omega
  simp only [pad3, List.mem_cons, List.not_mem_nil, or_false] at hc
  rcases hc with rfl | rfl | rfl
  · exact dchar_ne_Z h1
  · exact dchar_ne_Z h2
  · exact dchar_ne_Z h3

lemma pad4_no_Z {n : Nat} (h : n < 10000) : ∀ c ∈ pad4 n, c ≠ 'Z' := by
  intro c hc
  have h1 : n / 1000 < 10 := by omega
  have h2 : n / 100 % 10 < 10 := by omega
  have h3 : n / 10 % 10 < 10 := by omega
  have h4 : n % 10 < 10 := by omega
  simp only [pad4, List.mem_cons, List.not_mem_nil, or_false] at hc
  rcases hc with rfl | rfl | rfl | rfl
  · exact dchar_ne_Z h1
  · exact dchar_ne_Z h2
  · exact dchar_ne_Z h3
  · exact dchar_ne_Z h4

lemma isoChars_no_Z {y m d h mi s : Nat} (hy : y < 10000) (hm : m < 100)
    (hd : d < 100) (hh : h < 100) (hmi : mi < 100) (hs : s < 100) :
    ∀ c ∈ isoChars y m d h mi s, c ≠ 'Z' := by
  simp only [isoChars, List.forall_mem_append, List.forall_mem_cons, and_assoc]
  exact ⟨pad4_no_Z hy, by decide, pad2_no_Z hm, by decide, pad2_no_Z hd,
    by decide, pad2_no_Z hh, by decide, pad2_no_Z hmi, by decide, pad2_no_Z hs⟩

lemma replaceZ_append (a b : List Char) :
    replaceZ (a ++ b) = replaceZ a ++ replaceZ b := by
  induction a with
  | nil => rfl
  | cons c a ih => by_cases hc : c = 'Z' <;> simp [replaceZ, hc, ih]

lemma replaceZ_of_no_Z {l : List Char} (h : ∀ c ∈ l, c ≠ 'Z') :
    replaceZ l = l := by
  induction l with
  | nil => rfl
  | cons c l ih =>
    have hc : c ≠ 'Z' := h c (by simp)
    simp [replaceZ, hc, ih (fun c' hc' => h c' (by simp [hc']))]

lemma readFixed_pad2 {n : Nat} (h : n < 100) (rest : List Char) :
    readFixed 2 0 (pad2 n ++ rest) = some (n, rest) := by
  have h1 : n / 10 < 10 := by omega
  have h2 : n % 10 < 10 := by omega
  simp [pad2, readFixed, (dchar_digit h1).1, (dchar_digit h2).1,
    (dchar_digit h1).2, (dchar_digit h2).2]
  omega

lemma readFixed_pad4 {n : Nat} (h : n < 10000) (rest : List Char) :
    readFixed 4 0 (pad4 n ++ rest) = some (n, rest) := by
  have h1 : n / 1000 < 10 := by omega
  have h2 : n / 100 % 10 < 10 := by omega
  have h3 : n / 10 % 10 < 10 := by omega
  have h4 : n % 10 < 10 := by omega
  simp [pad4, readFixed, (dchar_digit h1).1, (dchar_digit h2).1,
    (dchar_digit h3).1, (dchar_digit h4).1, (dchar_digit h1).2,
    (dchar_digit h2).2, (dchar_digit h3).2, (dchar_digit h4).2]
  omega

lemma dropWhile_pad3 {f : Nat} (h : f < 1000) :
    (pad3 f).dropWhile Char.isDigit = [] := by
  have h1 : f / 100 < 10 := by omega
  have h2 : f / 10 % 10 < 10 := by omega
  have h3 : f % 10 < 10 := by omega
  simp [pad3, List.dropWhile, (dchar_digit h1).1, (dchar_digit h2).1,
    (dchar_digit h3).1]

lemma parseTimeEnd_basic {h mi s : Nat} (hh : h < 24) (hm : mi < 60)
    (hs : s < 60) :
    parseTimeEnd (pad2 h ++ ':' :: pad2 mi ++ ':' :: pad2 s) = true := by
  have e1 := readFixed_pad2 (show h < 100 by omega) (':' :: (pad2 mi ++ ':' :: pad2 s))
  have e2 := readFixed_pad2 (show mi < 100 by omega) (':' :: pad2 s)
  have e3 := readFixed_pad2 (show s < 100 by omega) ([] : List Char)
  rw [List.append_nil] at e3
  simp [parseTimeEnd, e1, e2, e3, hh, hm, hs, parseOffsetEnd]

lemma parseTimeEnd_frac {h mi s f : Nat} (hh : h < 24) (hm : mi < 60)
    (hs : s < 60) (hf : f < 1000) :
    parseTimeEnd (pad2 h ++ ':' :: pad2 mi ++ ':' :: pad2 s ++ '.' :: pad3 f)
      = true := by
  have e1 := readFixed_pad2 (show h < 100 by omega)
    (':' :: (pad2 mi ++ ':' :: (pad2 s ++ '.' :: pad3 f)))
  have e2 := readFixed_pad2 (show mi < 100 by omega) (':' :: (pad2 s ++ '.' :: pad3 f))
  have e3 := readFixed_pad2 (show s < 100 by omega) ('.' :: pad3 f)
  have hd1 : f / 100 < 10 := by omega
  have hd2 : f / 10 % 10 < 10 := by omega
  have hd3 : f % 10 < 10 := by omega
  simp [parseTimeEnd, e1, e2, e3, hh, hm, hs]
  simp [pad3, List.dropWhile, (dchar_digit hd1).1, (dchar_digit hd2).1,
    (dchar_digit hd3).1, parseOffsetEnd]

lemma parseTimeEnd_utc {h mi s : Nat} (hh : h < 24) (hm : mi < 60)
    (hs : s < 60) :
    parseTimeEnd (pad2 h ++ ':' :: pad2 mi ++ ':' :: pad2 s
      ++ '+' :: '0' :: '0' :: ':' :: '0' :: '0' :: []) = true := by
  have e1 := readFixed_pad2 (show h < 100 by omega)
    (':' :: (pad2 mi ++ ':' :: (pad2 s ++ '+' :: '0' :: '0' :: ':' :: '0' :: '0' :: [])))
  have e2 := readFixed_pad2 (show mi < 100 by omega)
    (':' :: (pad2 s ++ '+' :: '0' :: '0' :: ':' :: '0' :: '0' :: []))
  have e3 := readFixed_pad2 (show s < 100 by omega)
    ('+' :: '0' :: '0' :: ':' :: '0' :: '0' :: [])
  simp [parseTimeEnd, e1, e2, e3, hh, hm, hs]
  decide

lemma fromisoformat_ymd_tail {y m d : Nat} (hv : validYmd y m d = true)
    (tail : List Char)
    (ht : (match tail with
            | [] => true
            | _ :: rest => parseTimeEnd rest) = true) :
    fromisoformat (pad4 y ++ '-' :: pad2 m ++ '-' :: pad2 d ++ tail)
      = some ⟨y, m, d⟩ := by
  have hb : 1 ≤ y ∧ y ≤ 9999 ∧ 1 ≤ m ∧ m ≤ 12 ∧ d ≤ 31 := by
    have hle := daysInMonth_le y m
    simp only [validYmd, Bool.and_eq_true, decide_eq_true_eq] at hv
    omega
  have e1 := readFixed_pad4 (show y < 10000 by omega)
    ('-' :: (pad2 m ++ '-' :: (pad2 d ++ tail)))
  have e2 := readFixed_pad2 (show m < 100 by omega) ('-' :: (pad2 d ++ tail))
  have e3 := readFixed_pad2 (show d < 100 by omega) tail
  cases tail with
  | nil =>
    simp only [List.append_nil] at e1 e2 e3
    simp [fromisoformat, e1, e2, e3, expectChar, hv]
  | cons c rest =>
    have ht' : parseTimeEnd rest = true := ht
    simp [fromisoformat, e1, e2, e3, expectChar, hv, ht']

lemma parse_iso_basic (dp : String → Option Ymd) {y m d h mi s : Nat}
    (hv : validYmd y m d = true) (htv : validHms h mi s = true) :
    _parse_iso_date dp (isoTimestamp y m d h mi s) = .ok ⟨y, m, d⟩ := by
  have hb : 1 ≤ y ∧ y ≤ 9999 ∧ m ≤ 12 ∧ d ≤ 31 := by
    have := daysInMonth_le y m
    simp only [validYmd, Bool.and_eq_true, decide_eq_true_eq] at hv
    omega
  have hbt : h < 24 ∧ mi < 60 ∧ s < 60 := by
    simp only [validHms, Bool.and_eq_true, decide_eq_true_eq] at htv
    omega
  have hnz : ∀ c ∈ (isoTimestamp y m d h mi s).data, c ≠ 'Z' :=
    isoChars_no_Z (by omega) (by omega) (by omega) (by omega) (by omega) (by omega)
  have hre : replaceZ (isoTimestamp y m d h mi s).data = isoChars y m d h mi s :=
    replaceZ_of_no_Z hnz
  have hfi : fromisoformat (isoChars y m d h mi s) = some ⟨y, m, d⟩ :=
    fromisoformat_ymd_tail hv
      ('T' :: (pad2 h ++ ':' :: pad2 mi ++ ':' :: pad2 s))
      (parseTimeEnd_basic hbt.1 hbt.2.1 hbt.2.2)
  simp [_parse_iso_date, hre, hfi]

lemma parse_iso_frac (dp : String → Option Ymd) {y m d h mi s f : Nat}
    (hv : validYmd y m d = true) (htv : validHms h mi s = true)
    (hf : f < 1000) :
    _parse_iso_date dp (isoTimestampFrac y m d h mi s f) = .ok ⟨y, m, d⟩ := by
  have hb : 1 ≤ y ∧ y ≤ 9999 ∧ m ≤ 12 ∧ d ≤ 31 := by
    have := daysInMonth_le y m
    simp only [validYmd, Bool.and_eq_true, decide_eq_true_eq] at hv
    omega
  have hbt : h < 24 ∧ mi < 60 ∧ s < 60 := by
    simp only [validHms, Bool.and_eq_true, decide_eq_true_eq] at htv
    omega
  have hnz : ∀ c ∈ (isoTimestampFrac y m d h mi s f).data, c ≠ 'Z' := by
    have h1 := @isoChars_no_Z y m d h mi s
      (by omega) (by omega) (by omega) (by omega) (by omega) (by omega)
    have h2 := pad3_no_Z hf
    intro c hc
    rcases List.mem_append.mp hc with hc | hc
    · exact h1 c hc
    · rcases List.mem_cons.mp hc with rfl | hc
      · decide
      · exact h2 c hc
  have hre : replaceZ (isoTimestampFrac y m d h mi s f).data
      = isoChars y m d h mi s ++ '.' :: pad3 f :=
    replaceZ_of_no_Z hnz
  have hfi : fromisoformat (isoChars y m d h mi s ++ '.' :: pad3 f)
      = some ⟨y, m, d⟩ :=
    fromisoformat_ymd_tail hv
      ('T' :: (pad2 h ++ ':' :: pad2 mi ++ ':' :: pad2 s ++ '.' :: pad3 f))
      (parseTimeEnd_frac hbt.1 hbt.2.1 hbt.2.2 hf)
  simp [_parse_iso_date, hre, hfi]

lemma parse_iso_utc (dp : String → Option Ymd) {y m d h mi s : Nat}
    (hv : validYmd y m d = true) (htv : validHms h mi s = true) :
    _parse_iso_date dp (isoTimestampZ y m d h mi s) = .ok ⟨y, m, d⟩ := by
  have hb : 1 ≤ y ∧ y ≤ 9999 ∧ m ≤ 12 ∧ d ≤ 31 := by
    have := daysInMonth_le y m
    simp only [validYmd, Bool.and_eq_true, decide_eq_true_eq] at hv
    omega
  have hbt : h < 24 ∧ mi < 60 ∧ s < 60 := by
    simp only [validHms, Bool.and_eq_true, decide_eq_true_eq] at htv
    omega
  have hnz : ∀ c ∈ isoChars y m d h mi s, c ≠ 'Z' :=
    isoChars_no_Z (by omega) (by omega) (by omega) (by omega) (by omega) (by omega)
  have hre : replaceZ (isoTimestampZ y m d h mi s).data
      = isoChars y m d h mi s ++ '+' :: '0' :: '0' :: ':' :: '0' :: '0' :: [] := by
    have : replaceZ (isoChars y m d h mi s ++ ['Z'])
        = replaceZ (isoChars y m d h mi s) ++ replaceZ ['Z'] :=
      replaceZ_append _ _
    rw [replaceZ_of_no_Z hnz] at this
    exact this
  have hfi : fromisoformat
      (isoChars y m d h mi s ++ '+' :: '0' :: '0' :: ':' :: '0' :: '0' :: [])
      = some ⟨y, m, d⟩ :=
    fromisoformat_ymd_tail hv
      ('T' :: (pad2 h ++ ':' :: pad2 mi ++ ':' :: pad2 s
        ++ '+' :: '0' :: '0' :: ':' :: '0' :: '0' :: []))
      (parseTimeEnd_utc hbt.1 hbt.2.1 hbt.2.2)
  simp [_parse_iso_date, hre, hfi]

/-- C6: the Timestamp Normalizer tries, in order and stopping at the first
success, (a) the strict ISO parse with `Z` replaced by the UTC offset,
(b) the fixed-format naive parse of the string with `+offset` and fraction
stripped, (c) the black-box natural-language parser, and errors only when
all three fail; and every valid plain-ISO, fractional-ISO and `Z`-suffixed
representation yields exactly the explicit calendar date. -/
theorem c6_timestamp_normalizer :
    (∀ (dp : String → Option Ymd) (s : String),
      (∀ d0, fromisoformat (replaceZ s.data) = some d0 →
        _parse_iso_date dp s = .ok d0) ∧
      (fromisoformat (replaceZ s.data) = none →
        ∀ d0, strptime_YmdTHMS (stripPlusFrac s.data) = some d0 →
          _parse_iso_date dp s = .ok d0) ∧
      (fromisoformat (replaceZ s.data) = none →
        strptime_YmdTHMS (stripPlusFrac s.data) = none →
        _parse_iso_date dp s = (match dp s with
          | some d0 => .ok d0
          | none => .error ("Unrecognized datetime format: " ++ s)))) ∧
    (∀ (dp : String → Option Ymd) (y m d h mi s f : Nat),
      validYmd y m d = true → validHms h mi s = true → f < 1000 →
      _parse_iso_date dp (isoTimestamp y m d h mi s) = .ok ⟨y, m, d⟩ ∧
      _parse_iso_date dp (isoTimestampFrac y m d h mi s f) = .ok ⟨y, m, d⟩ ∧
      _parse_iso_date dp (isoTimestampZ y m d h mi s) = .ok ⟨y, m, d⟩) := by
  constructor
  · intro dp s
    refine ⟨?_, ?_, ?_⟩
    · intro d0 hd0
      simp [_parse_iso_date, hd0]
    · intro h1 d0 h2
      simp [_parse_iso_date, h1, h2]
    · intro h1 h2
      simp [_parse_iso_date, h1, h2]
  · intro dp y m d h mi s f hv htv hf
    exact ⟨parse_iso_basic dp hv htv, parse_iso_frac dp hv htv hf,
      parse_iso_utc dp hv htv⟩

/-- Witness for C6: `2025-08-27T10:30:00` (plain, with `.123`, and with `Z`)
all normalize to the explicit date 2025-08-27. -/
theorem c6_timestamp_normalizer_witness :
    validYmd 2025 8 27 = true ∧ validHms 10 30 0 = true ∧ 123 < 1000 ∧
    _parse_iso_date (fun _ => none) (isoTimestamp 2025 8 27 10 30 0)
      = .ok ⟨2025, 8, 27⟩ ∧
    _parse_iso_date (fun _ => none) (isoTimestampFrac 2025 8 27 10 30 0 123)
      = .ok ⟨2025, 8, 27⟩ ∧
    _parse_iso_date (fun _ => none) (isoTimestampZ 2025 8 27 10 30 0)
      = .ok ⟨2025, 8, 27⟩ :=
  ⟨by decide, by decide, by decide,
   (c6_timestamp_normalizer.2 (fun _ => none) 2025 8 27 10 30 0 123
      (by decide) (by decide) (by decide)).1,
   (c6_timestamp_normalizer.2 (fun _ => none) 2025 8 27 10 30 0 123
      (by decide) (by decide) (by decide)).2.1,
   (c6_timestamp_normalizer.2 (fun _ => none) 2025 8 27 10 30 0 123
      (by decide) (by decide) (by decide)).2.2⟩

end JiraTools
